import Mathlib

/-
Verification of the filevars application (src/src/filevars.c): the
file-variable registry built by SetupFileVar, the print-dispatch step
PrintFileVar, and one iteration of the main dispatch loop.

Modelling conventions:
  - VAR_HANDLE is Nat; VAR_INVALID is the sentinel 0 (the varserver
    null handle).  errno-style results are Nat (EOK 0, ENOENT 2, EINVAL 22).
  - External collaborators are parameters: VAR_FindByName is
    resolve : String -> Nat (returning VAR_INVALID when the name does not
    resolve); the filesystem is fs : String -> Option String (none when
    open fails, some content when the file opens); TEMPLATE_FileToFile is
    render : String -> String applied to the file content, its output
    being the bytes written to the session output descriptor.
  - Side effects on descriptors and the session are recorded as event
    traces (PEvent for the dispatch step, SEvent for the loop body).
  - VAR_Notify is a fire-and-forget subscription call on the external
    server with no observable effect on this state; it is not tracked.
-/

set_option autoImplicit false

namespace FileVars

/-- EOK result code (varserver convention). -/
def EOK : Nat := 0

/-- ENOENT errno value. -/
def ENOENT : Nat := 2

/-- EINVAL errno value. -/
def EINVAL : Nat := 22

/-- The invalid variable handle sentinel returned by VAR_FindByName when a
name does not resolve, and rejected by PrintFileVar. -/
def VAR_INVALID : Nat := 0

/-- The print-notification signal number delivered by the variable server.
Only its equality with the wait result matters; the concrete value is a
real-time signal number in the source. -/
def SIG_VAR_PRINT : Nat := 41

/-- One configuration record, as seen by the SetupFileVar callback: the
results of JSON_Find on the keys "var" and "file" (none models a missing
key). -/
structure JRecord where
  varField : Option String
  fileField : Option String
deriving DecidableEq

/-- Embedding of struct fileVar (filevars.c lines 67-78): a variable handle
bound to a template file name.  The pNext link is represented by placing
entries in a List in traversal order. -/
structure FileVar where
  hVar : Nat
  pFilename : String
deriving DecidableEq

/-- Embedding of struct fileVarsState (filevars.c lines 82-95), restricted
to the field the claims concern: the head of the file-vars linked list.
The server handle, verbose flag and config file name are external plumbing
with no effect on registry or dispatch behaviour. -/
structure FileVarsState where
  pFileVars : List FileVar
deriving DecidableEq

/-- Embedding of the non-null-state body of SetupFileVar (filevars.c lines
239-273): read the "var" and "file" fields; if both are present and the
FileVar allocation succeeds (allocOk), resolve the name with
VAR_FindByName WITHOUT checking the result, insert the new entry at the
head of the list and return EOK; otherwise return EINVAL and leave the
state untouched. -/
def SetupFileVarS (resolve : String → Nat) (allocOk : Bool)
    (pNode : JRecord) (pState : FileVarsState) : Nat × FileVarsState :=
  match pNode.varField, pNode.fileField with
  | some varname, some filename =>
      if allocOk then
        let pFilevar : FileVar := { hVar := resolve varname, pFilename := filename }
        (EOK, { pState with pFileVars := pFilevar :: pState.pFileVars })
      else
        (EINVAL, pState)
  | _, _ => (EINVAL, pState)

/-- Embedding of SetupFileVar (filevars.c lines 228-276), including the
null-state guard: a null pState yields EINVAL with no state to change. -/
def SetupFileVar (resolve : String → Nat) (allocOk : Bool)
    (pNode : JRecord) (pState : Option FileVarsState) : Nat × Option FileVarsState :=
  match pState with
  | some st =>
      let r := SetupFileVarS resolve allocOk pNode st
      (r.1, some r.2)
  | none => (EINVAL, none)

/-- Modelled from the spec: JSON_Iterate of the external tjson collaborator
(called at filevars.c line 176) is not part of this repository; per spec
section 6 the registration callback is invoked once per configuration
record, in the order of the sequence.  Allocation is taken to succeed
during the pass (allocation failure is covered at the single-call level
by SetupFileVarS). -/
def RegisterAll (resolve : String → Nat) (cfg : List JRecord)
    (st : FileVarsState) : FileVarsState :=
  match cfg with
  | [] => st
  | r :: rest => RegisterAll resolve rest (SetupFileVarS resolve true r st).2

/-- Observable descriptor and output-channel events of one dispatch step. -/
inductive PEvent where
  | openTemplate (path : String) : PEvent
  | deliver (bytes : String) : PEvent
  | closeTemplate (path : String) : PEvent
deriving DecidableEq

/-- Embedding of the scan loop of PrintFileVar (filevars.c lines 316-333):
walk the list; at the first entry whose handle equals hVar, open its file
(open succeeding iff fs returns content), render through
TEMPLATE_FileToFile and close the descriptor when the open succeeded,
set EOK and break; falling off the end leaves the pre-loop ENOENT. -/
def scanFileVars (fs : String → Option String) (render : String → String)
    (hVar : Nat) : List FileVar → Nat × List PEvent
  | [] => (ENOENT, [])
  | pFileVar :: rest =>
      if pFileVar.hVar = hVar then
        match fs pFileVar.pFilename with
        | some content =>
            (EOK, [PEvent.openTemplate pFileVar.pFilename,
                   PEvent.deliver (render content),
                   PEvent.closeTemplate pFileVar.pFilename])
        | none => (EOK, [])
      else
        scanFileVars fs render hVar rest

/-- Embedding of PrintFileVar (filevars.c lines 305-337): EINVAL when the
state pointer is null or the handle is VAR_INVALID, otherwise the scan
loop.  The second component is the trace of descriptor and output events. -/
def PrintFileVar (fs : String → Option String) (render : String → String)
    (pState : Option FileVarsState) (hVar : Nat) : Nat × List PEvent :=
  match pState with
  | some st =>
      if hVar ≠ VAR_INVALID then
        scanFileVars fs render hVar st.pFileVars
      else
        (EINVAL, [])
  | none => (EINVAL, [])

/-- Session-level events of one iteration of the main loop. -/
inductive SEvent where
  | openSession (sigval : Nat) : SEvent
  | dispatch (result : Nat) : SEvent
  | closeSession (sigval : Nat) : SEvent
deriving DecidableEq

/-- Embedding of one iteration of the main dispatch loop (filevars.c lines
178-198): when the awaited signal is SIG_VAR_PRINT, open the print session
(the server yielding hVar for sigval), run PrintFileVar, and close the
print session unconditionally; any other signal does nothing. -/
def DispatchIterate (fs : String → Option String) (render : String → String)
    (st : FileVarsState) (sig : Nat) (sigval : Nat) (hVar : Nat) : List SEvent :=
  if sig = SIG_VAR_PRINT then
    [SEvent.openSession sigval,
     SEvent.dispatch (PrintFileVar fs render (some st) hVar).1,
     SEvent.closeSession sigval]
  else
    []

/-- The first registry entry whose handle equals hVar, in the traversal
order of the scan loop (derived notion used to state lookup properties). -/
def matchedEntry (hVar : Nat) : List FileVar → Option FileVar
  | [] => none
  | fv :: rest => if fv.hVar = hVar then some fv else matchedEntry hVar rest

/-- The registry lookup of the spec: the file path bound to a handle, via
the first-match scan. -/
def lookupFileVar (hVar : Nat) (l : List FileVar) : Option String :=
  (matchedEntry hVar l).map FileVar.pFilename

/-- The binding a single configuration record contributes for a handle:
its file path when both fields are present and its name resolves to that
handle. -/
def bindingOf (resolve : String → Nat) (hVar : Nat) (r : JRecord) : Option String :=
  match r.varField, r.fileField with
  | some n, some f => if resolve n = hVar then some f else none
  | _, _ => none

/-- The file path of the LAST record in the configuration that binds the
given handle (later records take priority). -/
def lastBinding (resolve : String → Nat) (hVar : Nat) : List JRecord → Option String
  | [] => none
  | r :: rest =>
      match lastBinding resolve hVar rest with
      | some f => some f
      | none => bindingOf resolve hVar r

/- ------------------------------------------------------------------ -/
/- Helper lemmas                                                      -/
/- ------------------------------------------------------------------ -/

theorem matchedEntry_hVar {hVar : Nat} {l : List FileVar} {fv : FileVar}
    (h : matchedEntry hVar l = some fv) : fv.hVar = hVar := by
  induction l with
  | nil => simp [matchedEntry] at h
  | cons e rest ih =>
      by_cases he : e.hVar = hVar
      · simp [matchedEntry, he] at h
        simp [← h, he]
      · simp [matchedEntry, he] at h
        exact ih h

theorem matchedEntry_eq_none {hVar : Nat} {l : List FileVar}
    (h : ∀ fv ∈ l, fv.hVar ≠ hVar) : matchedEntry hVar l = none := by
  induction l with
  | nil => rfl
  | cons e rest ih =>
      have he := h e (List.mem_cons_self e rest)
      simp [matchedEntry, he]
      exact ih fun fv hm => h fv (List.mem_cons_of_mem e hm)

/-- When no entry matches, the scan returns the pre-loop ENOENT with an
empty trace. -/
theorem scanFileVars_of_none (fs : String → Option String)
    (render : String → String) {hVar : Nat} {l : List FileVar}
    (h : matchedEntry hVar l = none) :
    scanFileVars fs render hVar l = (ENOENT, []) := by
  induction l with
  | nil => rfl
  | cons e rest ih =>
      by_cases he : e.hVar = hVar
      · simp [matchedEntry, he] at h
      · simp only [matchedEntry, if_neg he] at h
        simp [scanFileVars, he, ih h]

/-- When the first matching entry has a file that does not open, the scan
acknowledges with EOK and an empty trace. -/
theorem scanFileVars_of_noopen (fs : String → Option String)
    (render : String → String) {hVar : Nat} {l : List FileVar} {fv : FileVar}
    (h : matchedEntry hVar l = some fv) (hf : fs fv.pFilename = none) :
    scanFileVars fs render hVar l = (EOK, []) := by
  induction l with
  | nil => simp [matchedEntry] at h
  | cons e rest ih =>
      by_cases he : e.hVar = hVar
      · simp only [matchedEntry, if_pos he, Option.some.injEq] at h
        subst h
        simp [scanFileVars, he, hf]
      · simp only [matchedEntry, if_neg he] at h
        simp [scanFileVars, he, ih h]

/-- When the first matching entry has a file that opens with the given
content, the scan returns EOK and the open-deliver-close trace. -/
theorem scanFileVars_of_content (fs : String → Option String)
    (render : String → String) {hVar : Nat} {l : List FileVar} {fv : FileVar}
    {c : String}
    (h : matchedEntry hVar l = some fv) (hf : fs fv.pFilename = some c) :
    scanFileVars fs render hVar l =
      (EOK, [PEvent.openTemplate fv.pFilename,
             PEvent.deliver (render c),
             PEvent.closeTemplate fv.pFilename]) := by
  induction l with
  | nil => simp [matchedEntry] at h
  | cons e rest ih =>
      by_cases he : e.hVar = hVar
      · simp only [matchedEntry, if_pos he, Option.some.injEq] at h
        subst h
        simp [scanFileVars, he, hf]
      · simp only [matchedEntry, if_neg he] at h
        simp [scanFileVars, he, ih h]

/- ------------------------------------------------------------------ -/
/- Claim theorems                                                     -/
/- ------------------------------------------------------------------ -/

/-- C9: a dispatch step with a null state pointer or the VAR_INVALID handle
returns EINVAL, scans no registry entry, opens no file and writes nothing
(empty event trace, independent of the registry). -/
theorem C9_invalid_args_einval (fs : String → Option String)
    (render : String → String) (pState : Option FileVarsState) (hVar : Nat)
    (h : pState = none ∨ hVar = VAR_INVALID) :
    PrintFileVar fs render pState hVar = (EINVAL, []) := by
  rcases h with h | h
  · subst h; rfl
  · subst h
    cases pState with
    | none => rfl
    | some st => simp [PrintFileVar]

/-- Witness for C9 at a concrete state and the invalid handle. -/
theorem C9_invalid_args_einval_witness :
    PrintFileVar (fun _ => none) (fun s => s)
      (some ⟨[⟨3, "a"⟩]⟩) VAR_INVALID = (EINVAL, []) :=
  C9_invalid_args_einval (fun _ => none) (fun s => s)
    (some ⟨[⟨3, "a"⟩]⟩) VAR_INVALID (Or.inr rfl)

/-- C10: every dispatch step renders at most one registry entry and every
template descriptor it opens is closed before it returns: the event trace
is empty, or a single open-deliver-close triple on one path. -/
theorem C10_at_most_one_render (fs : String → Option String)
    (render : String → String) (pState : Option FileVarsState) (hVar : Nat) :
    (PrintFileVar fs render pState hVar).2 = [] ∨
    ∃ p b, (PrintFileVar fs render pState hVar).2 =
      [PEvent.openTemplate p, PEvent.deliver b, PEvent.closeTemplate p] := by
  cases pState with
  | none => exact Or.inl rfl
  | some st =>
      by_cases hinv : hVar ≠ VAR_INVALID
      · cases hm : matchedEntry hVar st.pFileVars with
        | none =>
            exact Or.inl
              (by simp [PrintFileVar, hinv, scanFileVars_of_none fs render hm])
        | some fv =>
            cases hf : fs fv.pFilename with
            | none =>
                exact Or.inl
                  (by simp [PrintFileVar, hinv,
                        scanFileVars_of_noopen fs render hm hf])
            | some c =>
                exact Or.inr ⟨fv.pFilename, render c,
                  by simp [PrintFileVar, hinv,
                        scanFileVars_of_content fs render hm hf]⟩
      · simp [PrintFileVar, hinv]

/-- C1: in every loop iteration in which the wait yields the print signal,
the session is opened, the dispatch step runs, and the session is released
exactly once, after the dispatch step, whatever the dispatch result is. -/
theorem C1_session_released_once (fs : String → Option String)
    (render : String → String) (st : FileVarsState) (sigval hVar : Nat) :
    DispatchIterate fs render st SIG_VAR_PRINT sigval hVar =
      [SEvent.openSession sigval,
       SEvent.dispatch (PrintFileVar fs render (some st) hVar).1,
       SEvent.closeSession sigval] ∧
    List.count (SEvent.closeSession sigval)
      (DispatchIterate fs render st SIG_VAR_PRINT sigval hVar) = 1 := by
  constructor
  · simp [DispatchIterate]
  · simp [DispatchIterate, List.count_cons]

/-- C4: dispatching a print for a handle not present in the registry (with
a valid state and a valid handle) yields the ENOENT result with nothing
delivered, and the loop iteration still runs to completion, releasing the
session. -/
theorem C4_unmatched_handle_enoent (fs : String → Option String)
    (render : String → String) (st : FileVarsState) (hVar sigval : Nat)
    (hinv : hVar ≠ VAR_INVALID)
    (hmiss : ∀ fv ∈ st.pFileVars, fv.hVar ≠ hVar) :
    PrintFileVar fs render (some st) hVar = (ENOENT, []) ∧
    DispatchIterate fs render st SIG_VAR_PRINT sigval hVar =
      [SEvent.openSession sigval, SEvent.dispatch ENOENT,
       SEvent.closeSession sigval] := by
  have hp : PrintFileVar fs render (some st) hVar = (ENOENT, []) := by
    simp [PrintFileVar, hinv,
      scanFileVars_of_none fs render (matchedEntry_eq_none hmiss)]
  exact ⟨hp, by simp [DispatchIterate, hp]⟩

/-- Witness for C4: an unregistered handle against a one-entry registry. -/
theorem C4_unmatched_handle_enoent_witness :
    PrintFileVar (fun _ => some "x") (fun s => s)
      (some ⟨[⟨3, "a"⟩]⟩) 7 = (ENOENT, []) ∧
    DispatchIterate (fun _ => some "x") (fun s => s)
      ⟨[⟨3, "a"⟩]⟩ SIG_VAR_PRINT 9 7 =
      [SEvent.openSession 9, SEvent.dispatch ENOENT, SEvent.closeSession 9] :=
  C4_unmatched_handle_enoent (fun _ => some "x") (fun s => s)
    ⟨[⟨3, "a"⟩]⟩ 7 9 (by decide) (by decide)

/-- C5: dispatching a print for a registered handle whose bound file does
not open is a no-op render: zero bytes delivered, the request still
acknowledged with EOK, and the loop iteration still releases the session
exactly once. -/
theorem C5_noopen_noop_render (fs : String → Option String)
    (render : String → String) (pre post : List FileVar) (fv : FileVar)
    (hVar sigval : Nat)
    (hinv : hVar ≠ VAR_INVALID)
    (hpre : ∀ e ∈ pre, e.hVar ≠ hVar)
    (hfv : fv.hVar = hVar)
    (hopen : fs fv.pFilename = none) :
    PrintFileVar fs render (some ⟨pre ++ fv :: post⟩) hVar = (EOK, []) ∧
    DispatchIterate fs render ⟨pre ++ fv :: post⟩ SIG_VAR_PRINT sigval hVar =
      [SEvent.openSession sigval, SEvent.dispatch EOK,
       SEvent.closeSession sigval] := by
  have hm : matchedEntry hVar (pre ++ fv :: post) = some fv := by
    induction pre with
    | nil => simp [matchedEntry, hfv]
    | cons e rest ih =>
        have he := hpre e (List.mem_cons_self e rest)
        simp only [List.cons_append, matchedEntry, if_neg he]
        exact ih fun x hx => hpre x (List.mem_cons_of_mem e hx)
  have hp : PrintFileVar fs render (some ⟨pre ++ fv :: post⟩) hVar = (EOK, []) := by
    simp [PrintFileVar, hinv, scanFileVars_of_noopen fs render hm hopen]
  exact ⟨hp, by simp [DispatchIterate, hp]⟩

/-- Witness for C5: the matching entry is behind one non-matching entry and
its file does not open. -/
theorem C5_noopen_noop_render_witness :
    PrintFileVar (fun _ => none) (fun s => s)
      (some ⟨[⟨3, "a"⟩] ++ ⟨7, "b"⟩ :: [⟨7, "c"⟩]⟩) 7 = (EOK, []) ∧
    DispatchIterate (fun _ => none) (fun s => s)
      ⟨[⟨3, "a"⟩] ++ ⟨7, "b"⟩ :: [⟨7, "c"⟩]⟩ SIG_VAR_PRINT 9 7 =
      [SEvent.openSession 9, SEvent.dispatch EOK, SEvent.closeSession 9] :=
  C5_noopen_noop_render (fun _ => none) (fun s => s)
    [⟨3, "a"⟩] [⟨7, "c"⟩] ⟨7, "b"⟩ 7 9 (by decide) (by decide) rfl rfl

/- ------------------------------------------------------------------ -/
/- Registration lemmas                                                -/
/- ------------------------------------------------------------------ -/

/-- Registering one record changes the lookup of a handle exactly by the
binding the record contributes for that handle. -/
theorem lookup_after_setup (resolve : String → Nat) (hVar : Nat)
    (r : JRecord) (st : FileVarsState) :
    lookupFileVar hVar (SetupFileVarS resolve true r st).2.pFileVars =
      match bindingOf resolve hVar r with
      | some f => some f
      | none => lookupFileVar hVar st.pFileVars := by
  cases hv : r.varField with
  | none => simp [SetupFileVarS, bindingOf, hv]
  | some n =>
      cases hf : r.fileField with
      | none => simp [SetupFileVarS, bindingOf, hv, hf]
      | some f =>
          by_cases hr : resolve n = hVar
          · simp [SetupFileVarS, bindingOf, hv, hf, hr,
              lookupFileVar, matchedEntry]
          · simp [SetupFileVarS, bindingOf, hv, hf, hr,
              lookupFileVar, matchedEntry]

/-- Lookup against the registry built by the registration pass: the last
record of the configuration binding the handle wins; with no such record
the lookup falls through to the initial registry. -/
theorem lookup_registerAll (resolve : String → Nat) (hVar : Nat)
    (cfg : List JRecord) (st : FileVarsState) :
    lookupFileVar hVar (RegisterAll resolve cfg st).pFileVars =
      match lastBinding resolve hVar cfg with
      | some f => some f
      | none => lookupFileVar hVar st.pFileVars := by
  induction cfg generalizing st with
  | nil => rfl
  | cons r rest ih =>
      have h1 := ih (SetupFileVarS resolve true r st).2
      have h2 := lookup_after_setup resolve hVar r st
      simp only [RegisterAll, lastBinding]
      cases hlb : lastBinding resolve hVar rest with
      | some f => simp [hlb] at h1; simp [h1]
      | none =>
          simp only [hlb] at h1
          cases hb : bindingOf resolve hVar r with
          | some f => simp [hb] at h2; simp [h1, h2]
          | none => simp [hb] at h2; simp [h1, h2]

/-- C7: with head insertion and a first-match head-first scan, duplicate
registrations are resolved deterministically by last-registration-wins:
for every sequence of registrations starting from the empty registry, the
lookup of a handle returns exactly the binding of the last configuration
record that registered that handle. -/
theorem C7_last_registration_wins (resolve : String → Nat) (hVar : Nat)
    (cfg : List JRecord) :
    lookupFileVar hVar (RegisterAll resolve cfg ⟨[]⟩).pFileVars =
      lastBinding resolve hVar cfg := by
  have h := lookup_registerAll resolve hVar cfg ⟨[]⟩
  cases hlb : lastBinding resolve hVar cfg with
  | some f => simpa [hlb] using h
  | none => simpa [hlb, lookupFileVar, matchedEntry] using h

/-- A last binding always comes from some record of the configuration. -/
theorem lastBinding_mem (resolve : String → Nat) (hVar : Nat)
    (cfg : List JRecord) (f : String)
    (h : lastBinding resolve hVar cfg = some f) :
    ∃ r ∈ cfg, bindingOf resolve hVar r = some f := by
  induction cfg with
  | nil => simp [lastBinding] at h
  | cons r rest ih =>
      simp only [lastBinding] at h
      cases hlb : lastBinding resolve hVar rest with
      | some g =>
          rw [hlb] at h
          simp only [Option.some.injEq] at h
          subst h
          obtain ⟨r', hr', hb⟩ := ih hlb
          exact ⟨r', List.mem_cons_of_mem r hr', hb⟩
      | none =>
          rw [hlb] at h
          exact ⟨r, List.mem_cons_self r rest, h⟩

/-- A record contributing a binding forces the last binding to exist. -/
theorem lastBinding_isSome (resolve : String → Nat) (hVar : Nat)
    (cfg : List JRecord) (r : JRecord) (f : String)
    (hr : r ∈ cfg) (hb : bindingOf resolve hVar r = some f) :
    (lastBinding resolve hVar cfg).isSome := by
  induction cfg with
  | nil => simp at hr
  | cons e rest ih =>
      rcases List.mem_cons.mp hr with rfl | hr'
      · simp only [lastBinding]
        cases hlb : lastBinding resolve hVar rest with
        | some g => simp
        | none => simp [hb]
      · simp only [lastBinding]
        cases hlb : lastBinding resolve hVar rest with
        | some g => simp
        | none => rw [hlb] at ih; simpa using ih hr'

/-- C6: a successfully registered pair whose name resolves to a handle no
other configured name shares is found by lookup with exactly its file
path, and a print request on that handle delivers the rendered content of
that file. -/
theorem C6_lookup_roundtrip (resolve : String → Nat) (cfg : List JRecord)
    (name path : String) (fs : String → Option String)
    (render : String → String) (c : String)
    (hmem : JRecord.mk (some name) (some path) ∈ cfg)
    (hres : resolve name ≠ VAR_INVALID)
    (huniq : ∀ r ∈ cfg, ∀ n f, r.varField = some n → r.fileField = some f →
        resolve n = resolve name → f = path)
    (hfs : fs path = some c) :
    lookupFileVar (resolve name) (RegisterAll resolve cfg ⟨[]⟩).pFileVars =
      some path ∧
    PrintFileVar fs render (some (RegisterAll resolve cfg ⟨[]⟩))
        (resolve name) =
      (EOK, [PEvent.openTemplate path, PEvent.deliver (render c),
             PEvent.closeTemplate path]) := by
  have hb : bindingOf resolve (resolve name) ⟨some name, some path⟩ = some path := by
    simp [bindingOf]
  have hsome := lastBinding_isSome resolve (resolve name) cfg _ path hmem hb
  obtain ⟨f, hf⟩ := Option.isSome_iff_exists.mp hsome
  have hfpath : f = path := by
    obtain ⟨r, hr, hbr⟩ := lastBinding_mem resolve (resolve name) cfg f hf
    rcases r with ⟨vn, fn⟩
    cases vn with
    | none => simp [bindingOf] at hbr
    | some n =>
        cases fn with
        | none => simp [bindingOf] at hbr
        | some g =>
            by_cases hrn : resolve n = resolve name
            · simp [bindingOf, hrn] at hbr
              exact hbr ▸ huniq ⟨some n, some g⟩ hr n g rfl rfl hrn
            · simp [bindingOf, hrn] at hbr
  subst hfpath
  have hlook : lookupFileVar (resolve name)
      (RegisterAll resolve cfg ⟨[]⟩).pFileVars = some f := by
    have h := lookup_registerAll resolve (resolve name) cfg ⟨[]⟩
    simpa [hf] using h
  refine ⟨hlook, ?_⟩
  obtain ⟨fv, hmv, hpv⟩ := Option.map_eq_some'.mp hlook
  have hfsv : fs fv.pFilename = some c := by rw [hpv]; exact hfs
  have := scanFileVars_of_content fs render hmv hfsv
  simp [PrintFileVar, hres, this, hpv]

/-- Witness for C6 at a two-record configuration with distinct names and
distinct handles. -/
theorem C6_lookup_roundtrip_witness :
    lookupFileVar 5
      (RegisterAll (fun s => if s = "A" then 5 else if s = "B" then 6 else 0)
        [⟨some "A", some "ta"⟩, ⟨some "B", some "tb"⟩] ⟨[]⟩).pFileVars =
      some "ta" ∧
    PrintFileVar (fun p => if p = "ta" then some "CONTENT" else none)
        (fun s => s)
        (some (RegisterAll
          (fun s => if s = "A" then 5 else if s = "B" then 6 else 0)
          [⟨some "A", some "ta"⟩, ⟨some "B", some "tb"⟩] ⟨[]⟩)) 5 =
      (EOK, [PEvent.openTemplate "ta", PEvent.deliver "CONTENT",
             PEvent.closeTemplate "ta"]) := by
  have h := C6_lookup_roundtrip
    (fun s => if s = "A" then 5 else if s = "B" then 6 else 0)
    [⟨some "A", some "ta"⟩, ⟨some "B", some "tb"⟩] "A" "ta"
    (fun p => if p = "ta" then some "CONTENT" else none) (fun s => s) "CONTENT"
    (by decide) (by decide)
    (by
      intro r hr n f hn hf hrn
      simp only [List.mem_cons, List.not_mem_nil, or_false] at hr
      rcases hr with rfl | rfl
      · simp only [JRecord.mk.injEq] at *
        rw [Option.some.injEq] at hn hf
        subst hn; subst hf; rfl
      · rw [Option.some.injEq] at hn hf
        subst hn; subst hf
        exact absurd hrn (by decide))
    (by decide)
  simpa using h

/-- Every entry of the registry built by the registration pass comes from
a configuration record with both fields present, its handle being the
resolution of that record's name. -/
theorem registerAll_mem (resolve : String → Nat) (cfg : List JRecord)
    (st : FileVarsState) (fv : FileVar)
    (h : fv ∈ (RegisterAll resolve cfg st).pFileVars) :
    fv ∈ st.pFileVars ∨
      ∃ n f, JRecord.mk (some n) (some f) ∈ cfg ∧ fv = ⟨resolve n, f⟩ := by
  induction cfg generalizing st with
  | nil => exact Or.inl h
  | cons r rest ih =>
      rcases ih (SetupFileVarS resolve true r st).2 h with hin | ⟨n, f, hm, he⟩
      · rcases r with ⟨vn, fn⟩
        cases vn with
        | none => exact Or.inl hin
        | some n =>
            cases fn with
            | none => exact Or.inl hin
            | some f =>
                have hin' : fv = ⟨resolve n, f⟩ ∨ fv ∈ st.pFileVars := by
                  simpa [SetupFileVarS] using hin
                rcases hin' with rfl | hin'
                · exact Or.inr ⟨n, f, List.mem_cons_self _ _, rfl⟩
                · exact Or.inl hin'
      · exact Or.inr ⟨n, f, List.mem_cons_of_mem r hm, he⟩

/-- C3: every registry entry records the resolution of its configured
name; an entry whose name failed to resolve carries the VAR_INVALID
sentinel and is never the matched entry of any dispatch scan, since a scan
only runs for a handle different from VAR_INVALID and only matches entries
carrying that handle. -/
theorem C3_invalid_entries_never_matched (resolve : String → Nat)
    (cfg : List JRecord) (fv : FileVar)
    (hmem : fv ∈ (RegisterAll resolve cfg ⟨[]⟩).pFileVars) :
    (∃ n f, JRecord.mk (some n) (some f) ∈ cfg ∧ fv = ⟨resolve n, f⟩) ∧
    (fv.hVar ≠ VAR_INVALID ∨
      (fv.hVar = VAR_INVALID ∧
        (∀ hVar l, hVar ≠ VAR_INVALID → matchedEntry hVar l ≠ some fv) ∧
        ∀ fs render st, PrintFileVar fs render (some st) VAR_INVALID =
          (EINVAL, []))) := by
  constructor
  · rcases registerAll_mem resolve cfg ⟨[]⟩ fv hmem with hin | hout
    · simp at hin
    · exact hout
  · by_cases hv : fv.hVar = VAR_INVALID
    · refine Or.inr ⟨hv, ?_, ?_⟩
      · intro hVar l hne hcontra
        exact hne (by rw [← matchedEntry_hVar hcontra, hv])
      · intro fs render st
        simp [PrintFileVar]
    · exact Or.inl hv

/-- Witness for C3: a registry holding one entry whose name resolved to
the invalid sentinel. -/
theorem C3_invalid_entries_never_matched_witness :
    (∃ n f, JRecord.mk (some n) (some f) ∈ [JRecord.mk (some "a") (some "f")] ∧
      FileVar.mk VAR_INVALID "f" = ⟨(fun (_ : String) => VAR_INVALID) n, f⟩) ∧
    ((FileVar.mk VAR_INVALID "f").hVar ≠ VAR_INVALID ∨
      ((FileVar.mk VAR_INVALID "f").hVar = VAR_INVALID ∧
        (∀ hVar l, hVar ≠ VAR_INVALID →
          matchedEntry hVar l ≠ some (FileVar.mk VAR_INVALID "f")) ∧
        ∀ fs render st, PrintFileVar fs render (some st) VAR_INVALID =
          (EINVAL, []))) :=
  C3_invalid_entries_never_matched (fun _ => VAR_INVALID)
    [⟨some "a", some "f"⟩] ⟨VAR_INVALID, "f"⟩ (by decide)

/-- A resolver under which no name resolves (VAR_FindByName always yields
the invalid sentinel). -/
def noResolve : String → Nat := fun _ => VAR_INVALID

/-- Counterexample to C2: a record whose name does not resolve is still
registered. SetupFileVar returns EOK, not an error, and the registry
gains the entry, so a failed name resolution is neither a SetupError
result nor a no-op on the registry. -/
theorem C2_counterexample :
    noResolve "a" = VAR_INVALID ∧
    SetupFileVar noResolve true ⟨some "a", some "f"⟩ (some ⟨[]⟩) =
      (EOK, some ⟨[⟨VAR_INVALID, "f"⟩]⟩) ∧
    EOK ≠ EINVAL := by decide

/-- C2 as amended: registration fails with EINVAL and leaves the registry
unchanged exactly in the missing-field and allocation-failure cases; an
unresolved name is not treated as a failure (see the counterexample: the
entry is inserted with the invalid sentinel handle and EOK is returned). -/
theorem C2_amended_failure_unchanged (resolve : String → Nat)
    (allocOk : Bool) (r : JRecord) (st : FileVarsState)
    (h : r.varField = none ∨ r.fileField = none ∨ allocOk = false) :
    SetupFileVar resolve allocOk r (some st) = (EINVAL, some st) := by
  cases hv : r.varField with
  | none => simp [SetupFileVar, SetupFileVarS, hv]
  | some n =>
      cases hf : r.fileField with
      | none => simp [SetupFileVar, SetupFileVarS, hv, hf]
      | some f =>
          have ha : allocOk = false := by
            rcases h with h | h | h
            · rw [hv] at h; exact absurd h (by simp)
            · rw [hf] at h; exact absurd h (by simp)
            · exact h
          simp [SetupFileVar, SetupFileVarS, hv, hf, ha]

/-- Witness for the amended C2: a record missing its "var" field. -/
theorem C2_amended_failure_unchanged_witness :
    SetupFileVar (fun _ => 5) true ⟨none, some "f"⟩ (some ⟨[⟨3, "a"⟩]⟩) =
      (EINVAL, some ⟨[⟨3, "a"⟩]⟩) :=
  C2_amended_failure_unchanged (fun _ => 5) true ⟨none, some "f"⟩
    ⟨[⟨3, "a"⟩]⟩ (Or.inl rfl)

/-- A resolver for the C8 configuration: only the name "good" resolves. -/
def c8resolve : String → Nat := fun s => if s = "good" then 5 else VAR_INVALID

/-- The C8 configuration: a record whose name does not resolve followed by
one whose name does. -/
def c8cfg : List JRecord := [⟨some "bad", some "fb"⟩, ⟨some "good", some "fg"⟩]

/-- Counterexample to C8: the record whose name fails to resolve is NOT
skipped — the registration pass inserts an entry for it (with the invalid
sentinel handle) alongside the entry of the following record. -/
theorem C8_counterexample :
    c8resolve "bad" = VAR_INVALID ∧
    (RegisterAll c8resolve c8cfg ⟨[]⟩).pFileVars =
      [⟨5, "fg"⟩, ⟨VAR_INVALID, "fb"⟩] ∧
    FileVar.mk VAR_INVALID "fb" ∈ (RegisterAll c8resolve c8cfg ⟨[]⟩).pFileVars := by
  decide

/-- C8 as amended: a record whose name fails to resolve does not stop the
registration pass and is not reported — the callback returns EOK — and the
remaining records still register; but the record is not skipped: it is
inserted into the registry with the invalid sentinel handle. -/
theorem C8_amended_pass_continues (resolve : String → Nat) (n f : String)
    (rest : List JRecord) (st : FileVarsState)
    (h : resolve n = VAR_INVALID) :
    (SetupFileVarS resolve true ⟨some n, some f⟩ st).1 = EOK ∧
    RegisterAll resolve (⟨some n, some f⟩ :: rest) st =
      RegisterAll resolve rest ⟨⟨VAR_INVALID, f⟩ :: st.pFileVars⟩ := by
  refine ⟨rfl, ?_⟩
  simp [RegisterAll, SetupFileVarS, h]

/-- Witness for the amended C8: one unresolvable record followed by a
resolvable one; the pass registers both. -/
theorem C8_amended_pass_continues_witness :
    (SetupFileVarS c8resolve true ⟨some "bad", some "fb"⟩ ⟨[]⟩).1 = EOK ∧
    RegisterAll c8resolve (⟨some "bad", some "fb"⟩ ::
        [⟨some "good", some "fg"⟩]) ⟨[]⟩ =
      RegisterAll c8resolve [⟨some "good", some "fg"⟩]
        ⟨[⟨VAR_INVALID, "fb"⟩]⟩ :=
  C8_amended_pass_continues c8resolve "bad" "fb"
    [⟨some "good", some "fg"⟩] ⟨[]⟩ (by decide)

end FileVars
